import Mathlib

/-!
Verification development for the relationship graph view
(`src/components/visualization/GraphView.tsx`).

The component keeps graph data, a selection, a loading flag, an error
message and a button-zoom level in React state; it builds a d3 force
simulation over shallow copies of the fetched nodes and links, wires
drag/zoom/click handlers, and renders links with a strength-scaled
stroke width.  The d3 library itself is an external dependency whose
source is not part of this repository; where a property depends on the
engine's internals (tick integration, the alpha schedule, `stop()`,
link-endpoint resolution) those parts are modelled from the spec, with
a doc comment saying so.  Everything else is translated directly from
`GraphView.tsx`.
-/

namespace GraphSpec

/-- Property maps are ordered string-key/value mappings (the
`properties: Record<string, any>` field, restricted to display-safe
string values as the spec's data model states). -/
abbrev PropMap := List (String × String)

/-- The heap of property objects.  JavaScript objects are reference
values; a node's `properties` field holds a reference into this heap,
so that object sharing between a caller-owned node and its working
copy is observable. -/
abbrev Heap := List PropMap

/-- Reading a property object out of the heap (missing address reads
as the empty object). -/
def heapGet (h : Heap) (r : Nat) : PropMap :=
  List.getD h r []

/-- Writing a property object at an address of the heap (a JavaScript
mutation such as `obj.properties.k = v`, available in the language
though never performed by the simulation). -/
def heapSet (h : Heap) (r : Nat) (m : PropMap) : Heap :=
  List.set h r m

/-- A node, after the `SimulationNodeDatum` interface of
`GraphView.tsx`: identity, display name, type tag, a reference to its
properties object, the simulated position `(x, y)` with velocity, and
the optional pinned position `(fx, fy)`. -/
structure NodeDatum where
  id : String
  name : String
  type : String
  propsRef : Nat
  x : ℚ := 0
  y : ℚ := 0
  vx : ℚ := 0
  vy : ℚ := 0
  fx : Option ℚ := none
  fy : Option ℚ := none
deriving DecidableEq, Repr

/-- A raw link as fetched, after the `SimulationLinkDatum` interface:
`source` and `target` are node-id strings before the engine resolves
them, plus a type label and a properties reference. -/
structure LinkDatum where
  source : String
  target : String
  type : String
  propsRef : Nat
deriving DecidableEq, Repr

/-- A link in the working model: the engine replaces the string
endpoints with references to node objects (modelled as indices into
the working node array), so an endpoint is either an unresolved id or
a node index. -/
structure WLink where
  source : String ⊕ Nat
  target : String ⊕ Nat
  type : String
  propsRef : Nat
deriving DecidableEq, Repr

/-- The shallow copy `(n) => ( \x7b ...n \x7d )` of line 105: a fresh
top-level object whose fields — the properties reference included —
are the same values as the original's. -/
def copyNode (n : NodeDatum) : NodeDatum :=
  { id := n.id, name := n.name, type := n.type, propsRef := n.propsRef,
    x := n.x, y := n.y, vx := n.vx, vy := n.vy, fx := n.fx, fy := n.fy }

/-- The shallow copy `(l) => ( \x7b ...l \x7d )` of line 106, with the
string endpoints still unresolved. -/
def copyLink (l : LinkDatum) : WLink :=
  { source := Sum.inl l.source, target := Sum.inl l.target,
    type := l.type, propsRef := l.propsRef }

/-- A deep copy of a node would allocate a fresh properties object:
the copy's reference differs from the original's while all plain
fields agree.  This is what claim C4 and the comment on line 104
assert of the build step. -/
def IsDeepNodeCopy (orig copy : NodeDatum) : Prop :=
  copy.propsRef ≠ orig.propsRef ∧ copy.id = orig.id ∧ copy.name = orig.name ∧
    copy.type = orig.type ∧ copy.x = orig.x ∧ copy.y = orig.y

instance (orig copy : NodeDatum) : Decidable (IsDeepNodeCopy orig copy) := by
  unfold IsDeepNodeCopy
  infer_instance

/-! ## Button-driven zoom (lines 262-268) -/

/-- Zoom-in button handler: `setZoom(prev => Math.min(prev + 0.2, 3))`. -/
def zoomInStep (z : ℚ) : ℚ := min (z + 1/5) 3

/-- Zoom-out button handler: `setZoom(prev => Math.max(prev - 0.2, 0.5))`. -/
def zoomOutStep (z : ℚ) : ℚ := max (z - 1/5) (1/2)

/-- Applying a sequence of button presses (`true` = zoom-in, `false` =
zoom-out) to a starting scale. -/
def applyZoomPresses (presses : List Bool) (z : ℚ) : ℚ :=
  match presses with
  | [] => z
  | p :: rest => applyZoomPresses rest (if p then zoomInStep z else zoomOutStep z)

/-! ## Link stroke width (line 128) -/

/-- The JavaScript default `d.properties?.strength || 1`: an absent
strength and a zero strength (the falsy numeric values representable
here) are both replaced by 1. -/
def effStrength (s : Option ℚ) : ℚ :=
  match s with
  | none => 1
  | some v => if v = 0 then 1 else v

/-- Rendered stroke width of a link,
`Math.sqrt((d.properties?.strength || 1) * 2)` from line 128. -/
noncomputable def strokeWidth (s : Option ℚ) : ℝ :=
  Real.sqrt ((effStrength s : ℝ) * 2)

/-! ## Component UI state and event handling -/

/-- The React state of the component that the claims talk about:
`selectedNode` (by id), `graphData`, `loading` and `error`
(lines 48-52). -/
structure CState where
  selected : Option String
  graph : Option (List NodeDatum × List LinkDatum)
  loading : Bool
  error : Option String
deriving DecidableEq

/-- The initial component state: nothing selected, no data, not
loading, no error. -/
def initState : CState :=
  { selected := none, graph := none, loading := false, error := none }

/-- The error message set by the catch block of `fetchGraphData`
(line 66). -/
def errMsg : String := "Failed to load relationship graph data. Please try again."

/-- The events the handlers of `GraphView.tsx` react to.  `clickNode`
is the node click handler (lines 184-187, which stops propagation so
the background handler does not also run); `clickBackground` is the
svg click handler (lines 190-192); `closePanel` is the detail panel's
close button (line 342); `fetchStart` / `fetchSuccess` /
`fetchFailure` are the phases of `fetchGraphData` (lines 56-70);
`refreshClick` is the refresh button (lines 270-272); `scopeChange` is
the `investigationId` effect (lines 72-74). -/
inductive UIEvent where
  | clickNode (id : String)
  | clickBackground
  | closePanel
  | fetchStart
  | fetchSuccess (g : List NodeDatum × List LinkDatum)
  | fetchFailure
  | refreshClick
  | scopeChange
deriving DecidableEq

/-- One step of the component: the new state, paired with whether the
step issues a fetch request.  Translated handler by handler from
`GraphView.tsx`; note that neither `fetchSuccess` nor any other fetch
phase touches `selected` — no handler but the two click handlers and
the close button ever calls `setSelectedNode`. -/
def stepUI (s : CState) (e : UIEvent) : CState × Bool :=
  match e with
  | .clickNode id => ({ s with selected := some id }, false)
  | .clickBackground => ({ s with selected := none }, false)
  | .closePanel => ({ s with selected := none }, false)
  | .fetchStart => ({ s with loading := true, error := none }, false)
  | .fetchSuccess g => ({ s with graph := some g, loading := false }, false)
  | .fetchFailure => ({ s with loading := false, error := some errMsg }, false)
  | .refreshClick => (s, true)
  | .scopeChange => (s, true)

/-! ## The force engine

The engine's internals live in the d3 library, which is an external
dependency of this repository; its tick integration, alpha schedule
and `stop` are modelled from the spec (sections 4.2, 4.3 and the
glossary). -/

/-- Modelled from the spec: one tick's position integration for a
single node — the engine's integrator is in the d3 library, not in
src/.  Spec 4.2 step 5 updates each non-pinned node's position by its
accumulated velocity, and the glossary's pinned position is "a node's
position explicitly fixed, overriding simulation integration".  `dv`
is the velocity change accumulated from the forces this tick
(arbitrary here, so the theorems hold whatever the forces do). -/
def tickNode (dv : ℚ × ℚ) (n : NodeDatum) : NodeDatum :=
  let vx := n.vx + dv.1
  let vy := n.vy + dv.2
  { n with
    vx := vx, vy := vy,
    x := match n.fx with | some p => p | none => n.x + vx,
    y := match n.fy with | some p => p | none => n.y + vy }

/-- Iterating the tick over a list of per-tick force contributions. -/
def ticksNode (dvs : List (ℚ × ℚ)) (n : NodeDatum) : NodeDatum :=
  match dvs with
  | [] => n
  | dv :: rest => ticksNode rest (tickNode dv n)

/-- The drag-start handler (lines 218-222): pin the node at its
current position. -/
def dragstarted (n : NodeDatum) : NodeDatum :=
  { n with fx := some n.x, fy := some n.y }

/-- The drag-move handler (lines 224-227): move the pin to the pointer
position. -/
def dragged (px py : ℚ) (n : NodeDatum) : NodeDatum :=
  { n with fx := some px, fy := some py }

/-- The drag-end handler (lines 229-235): the node is deliberately
kept pinned at the drop position `(px, py)`. -/
def dragended (px py : ℚ) (n : NodeDatum) : NodeDatum :=
  { n with fx := some px, fy := some py }

/-- Modelled from the spec: the per-tick alpha decay rate — the
engine's alpha schedule is in the d3 library, not in src/.  Spec 4.2
step 6 decays alpha toward alphaTarget by a fixed multiplicative
factor per tick (0.99 times the previous alpha plus the remaining gap
toward the target). -/
def alphaDecay : ℚ := 1/100

/-- Modelled from the spec: the idle threshold below which the engine
transitions to Idle (spec 4.2 step 6, "a small threshold
(e.g. 0.001)"). -/
def alphaMin : ℚ := 1/1000

/-- Modelled from the spec: one tick of the alpha schedule,
`alpha + (alphaTarget - alpha) * alphaDecay`. -/
def alphaStep (alphaTarget a : ℚ) : ℚ :=
  a + (alphaTarget - a) * alphaDecay

/-- Alpha after `k` undisturbed ticks of an engine started by
`simulation.alpha(1).restart()` (line 238) with the resting target 0
(the default, and what `dragended` restores on line 230). -/
def alphaAfter (k : ℕ) : ℚ :=
  (alphaStep 0)^[k] 1

/-- The engine is Idle once alpha has fallen below the threshold. -/
def isIdle (a : ℚ) : Prop := a < alphaMin

instance (a : ℚ) : Decidable (isIdle a) := by
  unfold isIdle
  infer_instance

/-- One engine instance: its stopped flag, current alpha, and the
working node array it owns. -/
structure Engine where
  stopped : Bool
  alpha : ℚ
  nodes : List NodeDatum
deriving DecidableEq

/-- Modelled from the spec: `stop()` immediately halts ticking and
releases the scheduled callback; it must be idempotent (spec 4.2).
The call sites are src lines 86 and 242. -/
def Engine.stop (e : Engine) : Engine :=
  { e with stopped := true }

/-- Modelled from the spec: one animation frame of the host scheduler
for one engine.  A stopped engine has no scheduled callback, so the
frame leaves it untouched; a running engine performs one tick (alpha
decay and position integration). -/
def Engine.frame (e : Engine) : Engine :=
  if e.stopped then e
  else { e with alpha := alphaStep 0 e.alpha, nodes := e.nodes.map (tickNode (0, 0)) }

/-- A fresh engine over a working node list, as built on lines 109-117
and heated on line 238: running, at full energy. -/
def newEngine (nodes : List NodeDatum) : Engine :=
  { stopped := false, alpha := 1, nodes := nodes }

/-- The engines a mounted graph view has created: the current one
(`simulationRef.current`) and all superseded ones. -/
structure ViewSims where
  current : Option Engine
  previous : List Engine
deriving DecidableEq

/-- The model-installation effect (lines 84-87 and 109-117): stop the
previous simulation if it exists, then install a fresh engine over the
new working nodes. -/
def installModel (v : ViewSims) (nodes : List NodeDatum) : ViewSims :=
  { current := some (newEngine nodes),
    previous := (match v.current with | some e => [e.stop] | none => []) ++ v.previous }

/-- One animation frame of the host scheduler: every engine's
callback fires if and only if it is still scheduled. -/
def advanceFrame (v : ViewSims) : ViewSims :=
  { current := v.current.map Engine.frame,
    previous := v.previous.map Engine.frame }

/-! ## Model building and link-endpoint policy -/

/-- Whether both endpoints of a raw link name nodes present in the
fetched node set (the resolution performed through
`forceLink(links).id(d => d.id)` on lines 110-112). -/
def endpointsOk (ns : List NodeDatum) (l : LinkDatum) : Bool :=
  ns.any (fun n => n.id = l.source) && ns.any (fun n => n.id = l.target)

/-- Modelled from the spec: `buildModel(rawNodes, rawLinks)` — the
endpoint resolution itself happens inside the d3 library, not in
src/.  Spec 4.1 and 7 describe referential-integrity validation with
one consistent policy; the library realises the reject-the-whole-load
branch: if every link's endpoints exist the model holds the copied
nodes and exactly the given links, otherwise the whole load is
rejected — `forceLink(links).id(...)` throws a node-not-found error
synchronously when the force is registered, so `Except.error` here
stands for that thrown exception, not for a caught value. -/
def buildModel (ns : List NodeDatum) (ls : List LinkDatum) :
    Except String (List NodeDatum × List WLink) :=
  if ls.all (endpointsOk ns) then
    Except.ok (ns.map copyNode, ls.map copyLink)
  else
    Except.error "InvalidReference"

/-- The rebuild effect boundary as it exists in src: the effect on
lines 76-244 registers the link force (lines 110-112) with no
try/catch anywhere in its body, and src has no error boundary — the
only catch in the component wraps the HTTP fetch.  If the build
throws, the exception escapes the effect uncaught: no component
state results from the effect on that path, so the outcome is either
the component state after a successful build or the escaped
exception. -/
def rebuildEffect (s : CState) (ns : List NodeDatum) (ls : List LinkDatum) :
    Except String CState :=
  match buildModel ns ls with
  | Except.ok _ => Except.ok s
  | Except.error msg => Except.error msg

/-! ## The two zoom paths (lines 96-102, 246-268)

The component tracks the button-driven scale in React state (`zoom`,
line 52) while the d3 zoom behavior keeps its own transform on the
svg node; the `g` element's transform attribute is what is actually
rendered.  A pointer gesture updates the d3 transform and the `g`
attribute through the handler on lines 98-100; a button press updates
the React state (lines 262-268), and the effect on lines 246-260
writes the d3-held transform through a freshly constructed zoom
behavior that has no registered listener, so the `g` attribute is not
redrawn by that path. -/

/-- The zoom-related trackers of one mounted view: the React `zoom`
state, the d3-held transform (scale and translation stored on the svg
node), and the scale currently applied to the `g` element's transform
attribute. -/
structure ZoomPaths where
  reactZoom : ℚ
  d3k : ℚ
  d3x : ℚ
  d3y : ℚ
  gk : ℚ
deriving DecidableEq, Repr

/-- The trackers right after the effect mounts: React state starts at
1 (line 52) and the d3 transform is the identity. -/
def zoomInit : ZoomPaths :=
  { reactZoom := 1, d3k := 1, d3x := 0, d3y := 0, gk := 1 }

/-- A pointer zoom gesture toward scale `k`: the behavior clamps to
its own scaleExtent [0.1, 4] (line 97), stores the transform, and the
handler on lines 98-100 applies it to `g`.  The React `zoom` state is
not updated by this path. -/
def pointerZoomTo (k : ℚ) (s : ZoomPaths) : ZoomPaths :=
  let k := max (1/10) (min 4 k)
  { s with d3k := k, gk := k }

/-- A zoom-in button press: `setZoom` clamps at 3 (line 263), then
the effect on lines 246-260 reads the current d3 translation, builds
a transform with the new scale, and stores it via a listener-less
zoom behavior — the d3-held transform changes but `g` is not
redrawn. -/
def pressZoomIn (s : ZoomPaths) : ZoomPaths :=
  let z := zoomInStep s.reactZoom
  { s with reactZoom := z, d3k := z }

/-- A zoom-out button press, symmetric to `pressZoomIn`
(lines 266-268). -/
def pressZoomOut (s : ZoomPaths) : ZoomPaths :=
  let z := zoomOutStep s.reactZoom
  { s with reactZoom := z, d3k := z }

/-! ## Caller-owned data and the simulation's mutations -/

/-- Everything the simulation owns after a build, next to the
caller-owned input it was built from: the shared heap of property
objects, the caller's node and link arrays, and the working copies
the engine mutates. -/
structure World where
  heap : Heap
  callerNodes : List NodeDatum
  callerLinks : List LinkDatum
  nodes : List NodeDatum
  links : List WLink

/-- Building the working model from caller-owned data (lines 104-106):
shallow-copy each node and link; the heap is untouched, so property
objects stay shared. -/
def buildWorld (h : Heap) (ns : List NodeDatum) (ls : List LinkDatum) : World :=
  { heap := h, callerNodes := ns, callerLinks := ls,
    nodes := ns.map copyNode, links := ls.map copyLink }

/-- The mutations the language allows on the built world.  The first
three are the ones the engine and the drag handlers actually perform:
`setPos` is the tick's integration writing x/y/vx/vy, `setFix` is the
drag handlers writing fx/fy, `resolveLink` is the engine replacing a
link's string endpoints with node references.  `setProp` is a write
through a properties reference — expressible in JavaScript, but never
performed by the simulation or by dragging. -/
inductive SimOp where
  | setPos (i : Nat) (x y vx vy : ℚ)
  | setFix (i : Nat) (fx fy : Option ℚ)
  | resolveLink (j : Nat) (si ti : Nat)
  | setProp (r : Nat) (m : PropMap)
deriving DecidableEq

/-- Whether an operation is one the simulation or the drag handlers
perform (they write only top-level fields of the working copies). -/
def SimOp.isSimDrag : SimOp → Bool
  | .setProp _ _ => false
  | _ => true

/-- Applying one mutation to the world.  The working arrays and, for
`setProp`, the shared heap change; the caller's own arrays are
distinct top-level objects and are never written. -/
def applyOp (w : World) (op : SimOp) : World :=
  match op with
  | .setPos i x y vx vy =>
      { w with nodes :=
          match w.nodes.get? i with
          | some n => w.nodes.set i { n with x := x, y := y, vx := vx, vy := vy }
          | none => w.nodes }
  | .setFix i fx fy =>
      { w with nodes :=
          match w.nodes.get? i with
          | some n => w.nodes.set i { n with fx := fx, fy := fy }
          | none => w.nodes }
  | .resolveLink j si ti =>
      { w with links :=
          match w.links.get? j with
          | some l => w.links.set j { l with source := Sum.inr si, target := Sum.inr ti }
          | none => w.links }
  | .setProp r m => { w with heap := heapSet w.heap r m }

/-- Applying a sequence of mutations. -/
def applyOps (w : World) (ops : List SimOp) : World :=
  match ops with
  | [] => w
  | op :: rest => applyOps (applyOp w op) rest

/-- What the caller can observe of its own data: each of its nodes and
links with the contents of its properties object as read through the
shared heap. -/
def callerView (w : World) : List (NodeDatum × PropMap) × List (LinkDatum × PropMap) :=
  (w.callerNodes.map (fun n => (n, heapGet w.heap n.propsRef)),
   w.callerLinks.map (fun l => (l, heapGet w.heap l.propsRef)))

/-! ## Theorems -/

/-- Helper: the button-zoom bounds are an invariant of each single
press. -/
lemma applyZoomPresses_bounds (presses : List Bool) :
    ∀ z : ℚ, 1/2 ≤ z → z ≤ 3 →
      1/2 ≤ applyZoomPresses presses z ∧ applyZoomPresses presses z ≤ 3 := by
  induction presses with
  | nil => intro z h1 h2; exact ⟨h1, h2⟩
  | cons p rest ih =>
    intro z h1 h2
    cases p with
    | true =>
      refine ih (zoomInStep z) ?_ ?_
      · exact le_min (by linarith) (by norm_num)
      · exact min_le_right _ _
    | false =>
      refine ih (zoomOutStep z) ?_ ?_
      · exact le_max_right _ _
      · exact max_le (by linarith) (by norm_num)

/-- C6: starting from the initial scale 1, any sequence of zoom-in
and zoom-out button presses (each a 0.2 step clamped by
`handleZoomIn`/`handleZoomOut`) keeps the scale within the configured
bounds: never above 3 and never below 0.5. -/
theorem zoom_scale_bounded (presses : List Bool) :
    1/2 ≤ applyZoomPresses presses 1 ∧ applyZoomPresses presses 1 ≤ 3 :=
  applyZoomPresses_bounds presses 1 (by norm_num) (by norm_num)

/-- C5 counterexample: selecting node "a" and then performing a
successful data refresh leaves the selection set — the component
state machine does not clear SelectionState on refresh, contradicting
the claim that a successful refresh clears it. -/
theorem refresh_keeps_selection :
    ((stepUI ((stepUI initState (UIEvent.clickNode "a")).1)
        (UIEvent.fetchSuccess ([], []))).1).selected ≠ none := by
  decide

/-- C5 amended: SelectionState holds at most one node id; clicking a
node sets it to that id (the handler stops propagation, so the
background handler does not also fire); a background click and the
detail panel's close button clear it; a successful data refresh
leaves it unchanged (no handler on the fetch path writes the
selection). -/
theorem selection_protocol (s : CState) (id : String)
    (g : List NodeDatum × List LinkDatum) :
    ((stepUI s (UIEvent.clickNode id)).1).selected = some id ∧
    ((stepUI s UIEvent.clickBackground).1).selected = none ∧
    ((stepUI s UIEvent.closePanel).1).selected = none ∧
    ((stepUI s (UIEvent.fetchSuccess g)).1).selected = s.selected :=
  ⟨rfl, rfl, rfl, rfl⟩

/-- C9: a failed fetch ends with loading = false, the user-visible
error message set, and the previously held graph data unchanged; the
failure path issues no fetch of its own (no automatic retry), while
the manual refresh control does issue one. -/
theorem fetch_failure_state (s : CState) :
    ((stepUI ((stepUI s UIEvent.fetchStart).1) UIEvent.fetchFailure).1).loading = false ∧
    ((stepUI ((stepUI s UIEvent.fetchStart).1) UIEvent.fetchFailure).1).error = some errMsg ∧
    ((stepUI ((stepUI s UIEvent.fetchStart).1) UIEvent.fetchFailure).1).graph = s.graph ∧
    (stepUI ((stepUI s UIEvent.fetchStart).1) UIEvent.fetchFailure).2 = false ∧
    (stepUI s UIEvent.refreshClick).2 = true :=
  ⟨rfl, rfl, rfl, rfl, rfl⟩

/-- C10: the rendered stroke width of a link equals
sqrt(2 * strength) for the link's effective strength, and whenever
the raw strength is absent or zero (falsy) it is treated as 1,
giving stroke width sqrt 2. -/
theorem stroke_width_spec (s : Option ℚ) :
    strokeWidth s = Real.sqrt (2 * (effStrength s : ℝ)) ∧
    ((s = none ∨ s = some 0) → strokeWidth s = Real.sqrt 2) := by
  constructor
  · unfold strokeWidth
    rw [mul_comm]
  · rintro (rfl | rfl) <;> simp [strokeWidth, effStrength]

/-- Witness for C10 at the concrete falsy input `none`. -/
theorem stroke_width_spec_witness : strokeWidth none = Real.sqrt 2 :=
  (stroke_width_spec none).2 (Or.inl rfl)

/-- Helper: a node whose pin agrees with its position keeps both
through any sequence of ticks, whatever forces act. -/
lemma ticksNode_pinned (dvs : List (ℚ × ℚ)) :
    ∀ (m : NodeDatum) (px py : ℚ),
      m.fx = some px → m.fy = some py → m.x = px → m.y = py →
      (ticksNode dvs m).x = px ∧ (ticksNode dvs m).y = py ∧
      (ticksNode dvs m).fx = some px ∧ (ticksNode dvs m).fy = some py := by
  induction dvs with
  | nil => intro m px py hfx hfy hx hy; exact ⟨hx, hy, hfx, hfy⟩
  | cons dv rest ih =>
    intro m px py hfx hfy hx hy
    have heq : ticksNode (dv :: rest) m = ticksNode rest (tickNode dv m) := rfl
    rw [heq]
    exact ih (tickNode dv m) px py (by simpa [tickNode] using hfx)
      (by simpa [tickNode] using hfy) (by simp [tickNode, hfx]) (by simp [tickNode, hfy])

/-- C1: ending a drag at `(px, py)` leaves the node pinned there, and
on the next tick and every subsequent tick — whatever forces the
engine applies — the node's position is exactly `(px, py)` and its
pinned position stays set. -/
theorem dragended_pins_position (n : NodeDatum) (px py : ℚ)
    (dvs : List (ℚ × ℚ)) (h : dvs ≠ []) :
    (ticksNode dvs (dragended px py n)).x = px ∧
    (ticksNode dvs (dragended px py n)).y = py ∧
    (ticksNode dvs (dragended px py n)).fx = some px ∧
    (ticksNode dvs (dragended px py n)).fy = some py := by
  cases dvs with
  | nil => exact absurd rfl h
  | cons dv rest =>
    have heq : ticksNode (dv :: rest) (dragended px py n) =
        ticksNode rest (tickNode dv (dragended px py n)) := rfl
    rw [heq]
    exact ticksNode_pinned rest _ px py (by simp [tickNode, dragended])
      (by simp [tickNode, dragended]) (by simp [tickNode, dragended])
      (by simp [tickNode, dragended])

/-- Witness for C1: two ticks with nonzero forces after dropping a
node at (5, 7) leave it at x = 5. -/
theorem dragended_pins_position_witness :
    ([((1:ℚ), (1:ℚ)), (2, 3)] : List (ℚ × ℚ)) ≠ [] ∧
    (ticksNode [((1:ℚ), (1:ℚ)), (2, 3)]
      (dragended 5 7 { id := "a", name := "a", type := "person", propsRef := 0 })).x = 5 :=
  ⟨by decide,
   (dragended_pins_position { id := "a", name := "a", type := "person", propsRef := 0 }
     5 7 [((1:ℚ), (1:ℚ)), (2, 3)] (by decide)).1⟩

/-- Helper: with resting target 0 each alpha tick is multiplication
by 99/100. -/
lemma alphaStep_zero (a : ℚ) : alphaStep 0 a = (99/100) * a := by
  unfold alphaStep alphaDecay
  ring

/-- Helper: the alpha recurrence in closed form. -/
lemma alphaAfter_succ (k : ℕ) : alphaAfter (k+1) = (99/100) * alphaAfter k := by
  unfold alphaAfter
  rw [Function.iterate_succ_apply', alphaStep_zero]

/-- Helper: alpha after k undisturbed ticks is (99/100)^k. -/
lemma alphaAfter_eq_pow (k : ℕ) : alphaAfter k = ((99:ℚ)/100)^k := by
  induction k with
  | zero => simp [alphaAfter]
  | succ k ih => rw [alphaAfter_succ, ih, pow_succ]; ring

set_option exponentiation.threshold 1000 in
set_option maxRecDepth 4000 in
/-- Helper: the concrete numeric bound for the idle tick count. -/
lemma pow_688_bound : ((99:ℚ)/100)^688 < 1/1000 := by
  have hN : (99:ℕ)^688 * 1000 < 100^688 := by norm_num
  rw [div_pow, div_lt_div_iff₀ (by positivity) (by norm_num)]
  calc ((99:ℚ))^688 * 1000 = ((99^688 * 1000 : ℕ) : ℚ) := by push_cast; ring
    _ < ((100^688 : ℕ) : ℚ) := by exact_mod_cast hN
    _ = 1 * (100:ℚ)^688 := by push_cast; ring

/-- C2: for an engine started at alpha = 1 with alphaTarget = 0 and
left undisturbed, alpha is non-increasing tick over tick and falls
below the idle threshold within a bounded number of ticks (688), after
which the engine is Idle. -/
theorem alpha_decays_to_idle :
    (∀ k : ℕ, alphaAfter (k+1) ≤ alphaAfter k) ∧
    (∀ k : ℕ, 688 ≤ k → isIdle (alphaAfter k)) := by
  constructor
  · intro k
    have h0 : (0:ℚ) ≤ alphaAfter k := by
      rw [alphaAfter_eq_pow]; positivity
    rw [alphaAfter_succ]
    nlinarith
  · intro k hk
    unfold isIdle alphaMin
    rw [alphaAfter_eq_pow]
    calc ((99:ℚ)/100)^k ≤ ((99:ℚ)/100)^688 :=
          pow_le_pow_of_le_one (by norm_num) (by norm_num) hk
      _ < 1/1000 := pow_688_bound

/-- Witness for C2: at the concrete tick 700 the engine is Idle. -/
theorem alpha_decays_to_idle_witness : isIdle (alphaAfter 700) :=
  alpha_decays_to_idle.2 700 (by decide)

/-- Helper: a stopped engine is a fixed point of the frame step. -/
lemma frame_stop_fixed (e : Engine) : Engine.frame e.stop = e.stop := rfl

/-- Helper: a view whose most recent superseded engine is stopped keeps
it unchanged at the head through any number of scheduler frames. -/
lemma advanceFrame_prev_head (n : ℕ) :
    ∀ (v : ViewSims) (e : Engine), v.previous.head? = some e.stop →
      ((advanceFrame^[n]) v).previous.head? = some e.stop := by
  induction n with
  | zero => intro v e h; simpa using h
  | succ n ih =>
    intro v e h
    rw [Function.iterate_succ_apply]
    apply ih
    show ((advanceFrame v).previous).head? = some e.stop
    cases hv : v.previous with
    | nil => rw [hv] at h; exact absurd h (by simp)
    | cons a as =>
      rw [hv] at h
      simp only [List.head?_cons, Option.some.injEq] at h
      unfold advanceFrame
      simp [hv, h, frame_stop_fixed]

/-- C3: `stop()` is idempotent; once an engine is stopped, advancing
the scheduler any number of frames leaves it exactly as it was (zero
tick executions, zero position mutations); and installing a new model
stops the previous engine, which then receives no further ticks no
matter how many frames elapse — the new engine alone is current. -/
theorem stop_idempotent_no_further_ticks :
    (∀ e : Engine, e.stop.stop = e.stop) ∧
    (∀ (e : Engine) (n : ℕ), Engine.frame^[n] e.stop = e.stop) ∧
    (∀ (v : ViewSims) (ns : List NodeDatum) (e : Engine), v.current = some e →
      ∀ n : ℕ, ((advanceFrame^[n]) (installModel v ns)).previous.head? = some e.stop) := by
  refine ⟨fun e => rfl, fun e n => Function.iterate_fixed (frame_stop_fixed e) n, ?_⟩
  intro v ns e hcur n
  apply advanceFrame_prev_head
  unfold installModel
  rw [hcur]
  simp

/-- Witness for C3: a concrete view with one running engine, refreshed
with an empty model and advanced two frames. -/
theorem stop_idempotent_no_further_ticks_witness :
    ((advanceFrame^[2]) (installModel
        { current := some (newEngine []), previous := [] } [])).previous.head? =
      some (newEngine ([] : List NodeDatum)).stop :=
  stop_idempotent_no_further_ticks.2.2
    { current := some (newEngine []), previous := [] } [] (newEngine []) rfl 2

/-- C4 counterexample: the build step's copy of a concrete node is not
a deep copy — it shares the properties reference with the original —
and a write through that shared reference changes what the caller
observes of its own node's properties. -/
theorem shallow_copy_shares_properties :
    ¬ IsDeepNodeCopy { id := "a", name := "Alice", type := "person", propsRef := 0 }
        (copyNode { id := "a", name := "Alice", type := "person", propsRef := 0 }) ∧
    callerView (applyOp
        (buildWorld [[("k", "v")]]
          [{ id := "a", name := "Alice", type := "person", propsRef := 0 }] [])
        (SimOp.setProp 0 [("k", "w")])) ≠
      callerView (buildWorld [[("k", "v")]]
        [{ id := "a", name := "Alice", type := "person", propsRef := 0 }] []) := by
  decide

/-- Helper: operations from the simulation/drag repertoire never touch
the heap or the caller-owned arrays. -/
lemma applyOps_keeps_caller (ops : List SimOp) :
    ∀ w : World, (∀ op ∈ ops, op.isSimDrag = true) →
      (applyOps w ops).heap = w.heap ∧
      (applyOps w ops).callerNodes = w.callerNodes ∧
      (applyOps w ops).callerLinks = w.callerLinks := by
  induction ops with
  | nil => intro w _; exact ⟨rfl, rfl, rfl⟩
  | cons op rest ih =>
    intro w hall
    have hop : op.isSimDrag = true := hall op (by simp)
    have hrest : ∀ o ∈ rest, o.isSimDrag = true := fun o ho => hall o (by simp [ho])
    have heq : applyOps w (op :: rest) = applyOps (applyOp w op) rest := rfl
    rw [heq]
    have hw : (applyOp w op).heap = w.heap ∧
        (applyOp w op).callerNodes = w.callerNodes ∧
        (applyOp w op).callerLinks = w.callerLinks := by
      cases op with
      | setPos i x y vx vy => exact ⟨rfl, rfl, rfl⟩
      | setFix i fx fy => exact ⟨rfl, rfl, rfl⟩
      | resolveLink j si ti => exact ⟨rfl, rfl, rfl⟩
      | setProp r m => simp [SimOp.isSimDrag] at hop
    obtain ⟨h1, h2, h3⟩ := ih (applyOp w op) hrest
    exact ⟨h1.trans hw.1, h2.trans hw.2.1, h3.trans hw.2.2⟩

/-- C4 amended: the build step shallow-copies every node and link
into fresh top-level objects (nested properties objects stay shared),
and since the simulation and the drag handlers mutate only top-level
fields of the working copies — positions, velocities, pins, resolved
link endpoints — no mutation they perform ever changes what the
caller observes of its own data. -/
theorem sim_mutations_never_touch_caller (h : Heap) (ns : List NodeDatum)
    (ls : List LinkDatum) (ops : List SimOp)
    (hops : ∀ op ∈ ops, op.isSimDrag = true) :
    callerView (applyOps (buildWorld h ns ls) ops) = callerView (buildWorld h ns ls) := by
  obtain ⟨h1, h2, h3⟩ := applyOps_keeps_caller ops (buildWorld h ns ls) hops
  unfold callerView
  rw [h1, h2, h3]

/-- Witness for C4's amended theorem: a concrete tick write and drag
pin on a one-node world leave the caller's view unchanged. -/
theorem sim_mutations_never_touch_caller_witness :
    (∀ op ∈ [SimOp.setPos 0 1 2 0 0, SimOp.setFix 0 (some 3) (some 4)],
      op.isSimDrag = true) ∧
    callerView (applyOps
        (buildWorld [[("k", "v")]]
          [{ id := "a", name := "Alice", type := "person", propsRef := 0 }] [])
        [SimOp.setPos 0 1 2 0 0, SimOp.setFix 0 (some 3) (some 4)]) =
      callerView (buildWorld [[("k", "v")]]
        [{ id := "a", name := "Alice", type := "person", propsRef := 0 }] []) :=
  ⟨by decide,
   sim_mutations_never_touch_caller [[("k", "v")]]
     [{ id := "a", name := "Alice", type := "person", propsRef := 0 }] []
     [SimOp.setPos 0 1 2 0 0, SimOp.setFix 0 (some 3) (some 4)] (by decide)⟩

/-- C7 evaluation at the failing input: from the initial state, one
pointer zoom gesture to scale 2 updates the d3-held transform but not
the React zoom state, so the two trackers desync; a zoom-in button
press then computes 1.2 from its own stale state instead of 2.2, and
leaves the rendered `g` scale at 2, desynced from the transform it
just stored. -/
theorem zoom_paths_desync :
    (pointerZoomTo 2 zoomInit).reactZoom = 1 ∧
    (pointerZoomTo 2 zoomInit).d3k = 2 ∧
    (pointerZoomTo 2 zoomInit).reactZoom ≠ (pointerZoomTo 2 zoomInit).d3k ∧
    (pressZoomIn (pointerZoomTo 2 zoomInit)).d3k = 6/5 ∧
    (pressZoomIn (pointerZoomTo 2 zoomInit)).gk = 2 ∧
    (pressZoomIn (pointerZoomTo 2 zoomInit)).d3k ≠
      (pressZoomIn (pointerZoomTo 2 zoomInit)).gk := by
  refine ⟨?_, ?_, ?_, ?_, ?_, ?_⟩ <;>
    norm_num [pointerZoomTo, pressZoomIn, zoomInit, zoomInStep, min_def, max_def]

/-- C8 counterexample: on a concrete one-node graph with a dangling
link, the rebuild effect's outcome is the escaped build error — no
component state results from the effect, so the invalid-reference
case is not handled at the build boundary; it escapes as an uncaught
failure, contradicting the claim's final conjunct. -/
theorem invalid_link_escapes_uncaught :
    rebuildEffect initState
        [{ id := "a", name := "a", type := "person", propsRef := 0 }]
        [{ source := "a", target := "c", type := "works_at", propsRef := 1 }] =
      Except.error "InvalidReference" ∧
    ¬ ∃ s' : CState, rebuildEffect initState
        [{ id := "a", name := "a", type := "person", propsRef := 0 }]
        [{ source := "a", target := "c", type := "works_at", propsRef := 1 }] =
      Except.ok s' := by
  have h1 : rebuildEffect initState
      [{ id := "a", name := "a", type := "person", propsRef := 0 }]
      [{ source := "a", target := "c", type := "works_at", propsRef := 1 }] =
    Except.error "InvalidReference" := by rfl
  refine ⟨h1, ?_⟩
  rintro ⟨s', hs⟩
  rw [h1] at hs
  exact absurd hs (by simp)

/-- C8 amended: if every link's endpoints exist, the build succeeds
and the model holds exactly the given links (as their working
copies); any link with a missing endpoint makes the build reject the
whole load — one consistent policy across the call — but the
rejection is a thrown error that the effect does not catch, so it
escapes the build boundary as an uncaught failure instead of being
handled there. -/
theorem build_model_reject_escapes :
    (∀ (ns : List NodeDatum) (ls : List LinkDatum),
      (∀ l ∈ ls, endpointsOk ns l = true) →
      buildModel ns ls = Except.ok (ns.map copyNode, ls.map copyLink)) ∧
    (∀ (ns : List NodeDatum) (ls : List LinkDatum) (l : LinkDatum),
      l ∈ ls → endpointsOk ns l = false →
      buildModel ns ls = Except.error "InvalidReference") ∧
    (∀ (s : CState) (ns : List NodeDatum) (ls : List LinkDatum) (l : LinkDatum),
      l ∈ ls → endpointsOk ns l = false →
      rebuildEffect s ns ls = Except.error "InvalidReference") := by
  have hbad : ∀ (ns : List NodeDatum) (ls : List LinkDatum) (l : LinkDatum),
      l ∈ ls → endpointsOk ns l = false →
      buildModel ns ls = Except.error "InvalidReference" := by
    intro ns ls l hl hbad
    have hc : ¬ ls.all (endpointsOk ns) = true := by
      intro hall
      have h2 := List.all_eq_true.mp hall l hl
      rw [hbad] at h2
      exact absurd h2 (by simp)
    simp [buildModel, hc]
  refine ⟨?_, hbad, ?_⟩
  · intro ns ls hall
    have hc : ls.all (endpointsOk ns) = true := List.all_eq_true.mpr hall
    simp [buildModel, hc]
  · intro s ns ls l hl hb
    unfold rebuildEffect
    rw [hbad ns ls l hl hb]

/-- Witness for C8's amended theorem: a concrete two-node graph with
one valid link builds successfully, and a dangling link makes the
escaped error the effect's outcome. -/
theorem build_model_reject_escapes_witness :
    buildModel
        [{ id := "a", name := "a", type := "person", propsRef := 0 },
         { id := "b", name := "b", type := "company", propsRef := 1 }]
        [{ source := "a", target := "b", type := "works_at", propsRef := 2 }] =
      Except.ok
        ([{ id := "a", name := "a", type := "person", propsRef := 0 },
          { id := "b", name := "b", type := "company", propsRef := 1 }].map copyNode,
         [{ source := "a", target := "b", type := "works_at", propsRef := 2 }].map copyLink) ∧
    rebuildEffect initState
        [{ id := "b", name := "b", type := "company", propsRef := 1 }]
        [{ source := "b", target := "z", type := "works_at", propsRef := 2 }] =
      Except.error "InvalidReference" :=
  ⟨build_model_reject_escapes.1 _ _ (by decide),
   build_model_reject_escapes.2.2 initState _ _
     { source := "b", target := "z", type := "works_at", propsRef := 2 }
     (by decide) (by decide)⟩

end GraphSpec
